import Mathlib

/-!
Shallow embedding of the MyFuture_AI account-lifecycle / credential core
(`backend/app/core/security.py`, `backend/app/services/auth_service.py`,
`backend/app/services/google_id_token.py`).

Modelling conventions:
* Timestamps are integers (seconds); a stored timestamp carries a flag saying
  whether it is timezone-aware or naive, mirroring Python `datetime.tzinfo`.
  `datetime.now(timezone.utc)` values are always aware.
* The SQLAlchemy session is a list of `User` records; `db.scalar(select(...))`
  is `List.find?`; `db.add`+`db.commit` of a mutated record is `updateUser`.
* A raised `ValueError(msg)` is `Except.error msg`; functions that return
  `None` instead of raising return `Option`.
* Library primitives with no logic of their own in this repository (bcrypt
  `hashpw`/`checkpw`, HMAC-SHA256 token hashing, random token/uuid/username
  generation) are passed in as explicit function/value parameters; the code
  under verification is everything around them.
-/

namespace MyFutureAI

/-- A Python `datetime`: either timezone-aware or naive, with its clock value
in seconds. `datetime.now(timezone.utc)` always produces an aware value. -/
inductive Timestamp where
  | aware (t : Int)
  | naive (t : Int)
deriving DecidableEq, Repr

/-- The `if ts.tzinfo is None: ts = ts.replace(tzinfo=timezone.utc)`
normalisation: a naive datetime is reinterpreted as UTC, keeping its clock
value, before being compared. -/
def Timestamp.toUtc : Timestamp → Int
  | .aware t => t
  | .naive t => t

/-- `app/models/user.py` — the `users` table row (the columns the core
touches; `created_at`/`updated_at` are storage bookkeeping the services never
read). -/
structure User where
  id : String
  username : Option String
  email : String
  password_hash : Option String
  auth_provider : String
  is_verified : Bool
  verified_at : Option Timestamp
  email_verification_token_hash : Option String
  email_verification_expires_at : Option Timestamp
  password_reset_token_hash : Option String
  password_reset_expires_at : Option Timestamp
  password_reset_requested_at : Option Timestamp
deriving DecidableEq, Repr

/-- The user-record store; `db.scalar(select(User).where(...))` returns the
first matching row. -/
abbrev Directory := List User

/-- `db.scalar(select(User).where(User.email == email))`. -/
def findByEmail (d : Directory) (email : String) : Option User :=
  d.find? (fun u => u.email == email)

/-- `db.scalar(select(User).where(User.username == username))`. -/
def findByUsername (d : Directory) (username : String) : Option User :=
  d.find? (fun u => u.username == some username)

/-- `db.scalar(select(User).where(User.email_verification_token_hash == h))`. -/
def findByVerificationHash (d : Directory) (h : String) : Option User :=
  d.find? (fun u => u.email_verification_token_hash == some h)

/-- `db.scalar(select(User).where(User.password_reset_token_hash == h))`. -/
def findByResetHash (d : Directory) (h : String) : Option User :=
  d.find? (fun u => u.password_reset_token_hash == some h)

/-- `db.add(user); db.commit()` after mutating an ORM row in place: the row
with that id now holds the new field values. -/
def updateUser (d : Directory) (u : User) : Directory :=
  d.map (fun v => if v.id == u.id then u else v)

/-- Python truthiness of an optional string (`not user.password_hash` is true
for both `None` and the empty string). -/
def truthyStr : Option String → Bool
  | none => false
  | some s => s != ""

/-! ## `app/core/security.py` — password policy -/

/-- `re.search(r"[A-Z]", password)` finds an ASCII uppercase letter. -/
def isAsciiUpper (c : Char) : Bool := 'A' ≤ c && c ≤ 'Z'

/-- `re.search(r"[a-z]", password)` finds an ASCII lowercase letter. -/
def isAsciiLower (c : Char) : Bool := 'a' ≤ c && c ≤ 'z'

/-- `re.search(r"[0-9]", password)` finds an ASCII digit. -/
def isAsciiDigit (c : Char) : Bool := '0' ≤ c && c ≤ '9'

/-- `_PASSWORD_SPECIAL_RE = re.compile(r"[^A-Za-z0-9]")`: any character that
is not an ASCII letter or digit. -/
def isSpecialChar (c : Char) : Bool :=
  !(isAsciiUpper c || isAsciiLower c || isAsciiDigit c)

/-- `len(password.encode("utf-8"))`. -/
def utf8ByteLen (s : String) : Nat := s.utf8ByteSize

/-- Python `str.strip()`: drop leading and trailing whitespace. -/
def pyStrip (s : String) : String :=
  String.mk (((s.toList.dropWhile Char.isWhitespace).reverse.dropWhile
    Char.isWhitespace).reverse)

/-- Lowercasing of one character as Python `str.lower` does on the ASCII
range (the only range the comparisons in this code can be sensitive to). -/
def lowerChar (c : Char) : Char :=
  if 'A' ≤ c && c ≤ 'Z' then Char.ofNat (c.toNat + 32) else c

/-- Python `str.lower`, on the ASCII range. -/
def pyLower (s : String) : String := String.mk (s.toList.map lowerChar)

/-- `validate_password_strength` (security.py lines 20–38), check for check:
byte ceiling first with its distinct message, then length, then the four
character classes. -/
def validate_password_strength (password : String) : Except String Unit :=
  if utf8ByteLen password > 72 then
    .error ("Password is too long for bcrypt (max 72 bytes, got "
      ++ toString (utf8ByteLen password)
      ++ "). Remove emojis/hidden characters and try again.")
  else if password.length < 8 then
    .error "Password must be at least 8 characters"
  else if !(password.toList.any isAsciiUpper) then
    .error "Password must contain at least one uppercase letter"
  else if !(password.toList.any isAsciiLower) then
    .error "Password must contain at least one lowercase letter"
  else if !(password.toList.any isAsciiDigit) then
    .error "Password must contain at least one number"
  else if !(password.toList.any isSpecialChar) then
    .error "Password must contain at least one special character"
  else
    .ok ()

/-- `hash_password` (security.py lines 41–44): re-validates the policy, then
defers to bcrypt (`hashpw` is the bcrypt primitive, passed in). -/
def hash_password (hashpw : String → String) (password : String) :
    Except String String :=
  match validate_password_strength password with
  | .error e => .error e
  | .ok _ => .ok (hashpw password)

/-- `verify_password` (security.py lines 47–51): calls bcrypt `checkpw`
inside `try/except`; `checkpw` returning `none` models the library raising,
which the wrapper converts to `False`. -/
def verify_password (checkpw : String → String → Option Bool)
    (password password_hash : String) : Bool :=
  match checkpw password password_hash with
  | some b => b
  | none => false

/-! ## `app/services/google_id_token.py` — external assertion claims -/

/-- The claims record the external verifier hands back (google_id_token.py
lines 8–13). -/
structure GoogleTokenClaims where
  email : String
  sub : String
  name : Option String
  email_verified : Option Bool
deriving DecidableEq, Repr

/-- A JSON claim value as Python sees it: absent/None, a bool, a string, or
some other (unrecognized) type. -/
inductive JsonValue where
  | null
  | bool (b : Bool)
  | str (s : String)
  | other
deriving DecidableEq, Repr

/-- google_id_token.py lines 48–57: coercion of the raw `email_verified`
claim. `None` stays `None`, a bool passes through, a string compares
case-insensitively against `"true"` (Python `str.lower`, modelled for the
ASCII letters the literal `"true"` involves), anything else becomes `None`. -/
def parse_email_verified : JsonValue → Option Bool
  | .null => none
  | .bool b => some b
  | .str s => some (pyLower s == "true")
  | .other => none

/-! ## `app/services/auth_service.py` — the auth service

Random inputs (`secrets.token_urlsafe`, `secrets.token_hex`, `uuid.uuid4`)
and the current time become explicit parameters; the HMAC token-hash
derivations and the bcrypt primitive become function parameters. -/

/-- `_USERNAME_RE = re.compile(r"^[A-Za-z0-9_]{3,30}$")`, `fullmatch`. -/
def usernameOk (s : String) : Bool :=
  3 ≤ s.length && s.length ≤ 30 &&
    s.toList.all (fun c => isAsciiUpper c || isAsciiLower c || isAsciiDigit c || c == '_')

/-- `AuthService._generate_default_username` (lines 70–78): try up to 20
random candidates `user_<6 hex chars>` (the random hex strings are the
`hexes` parameter), returning the first not already taken; exhaustion is an
allocation error. -/
def generate_default_username (d : Directory) (hexes : List String) :
    Except String String :=
  match ((hexes.take 20).map (fun hx => "user_" ++ hx)).find?
      (fun c => (findByUsername d c).isNone) with
  | some c => .ok c
  | none => .error "Unable to generate username. Please try again."

/-- `re.sub(r"[^A-Za-z0-9]+", "_", s)` on a character list: each maximal run
of non-alphanumeric characters collapses to a single underscore. The flag
records being inside such a run. -/
def collapseNonAlnumAux : Bool → List Char → List Char
  | _, [] => []
  | inRun, c :: cs =>
    if isAsciiUpper c || isAsciiLower c || isAsciiDigit c then
      c :: collapseNonAlnumAux false cs
    else if inRun then
      collapseNonAlnumAux true cs
    else
      '_' :: collapseNonAlnumAux true cs

/-- `re.sub(r"[^A-Za-z0-9]+", "_", s)`. -/
def collapseNonAlnum (s : String) : String :=
  String.mk (collapseNonAlnumAux false s.toList)

/-- Python `str.strip("_")`: drop leading and trailing underscores. -/
def stripUnderscores (s : String) : String :=
  String.mk (((s.toList.dropWhile (· == '_')).reverse.dropWhile (· == '_')).reverse)

/-- `AuthService._derive_username_from_name` (lines 148–174). `suffix`
models the `secrets.token_hex(2)` draw used on a first collision. -/
def derive_username_from_name (d : Directory) (name : Option String)
    (suffix : String) : Option String :=
  match name with
  | none => none
  | some n =>
    if n == "" then none
    else
      let cleaned := stripUnderscores (collapseNonAlnum (pyStrip n))
      if cleaned == "" then none
      else
        let candidate := String.mk (cleaned.toList.take 30)
        if !(usernameOk candidate) then none
        else
          match findByUsername d candidate with
          | none => some candidate
          | some _ =>
            let base := String.mk (candidate.toList.take (30 - (1 + suffix.length)))
            let candidate2 := if base != "" then base ++ "_" ++ suffix
                              else "user_" ++ suffix
            if !(usernameOk candidate2) then none
            else
              match findByUsername d candidate2 with
              | none => some candidate2
              | some _ => none

/-- The shared create-and-persist tail of `AuthService.register`
(lines 49–67): mint the verification hash and expiry, build the row, add,
commit. `verificationHours` is `settings.email_verification_token_hours`. -/
def registerCreate (verificationHours : Int) (hashTok : String → String)
    (hashpw : String → String) (d : Directory) (email password nu : String)
    (raw_token newId : String) (now : Int) :
    Except String (User × String) × Directory :=
  match hash_password hashpw password with
  | .error e => (.error e, d)
  | .ok ph =>
    (.ok ({ id := newId, username := some nu, email := email,
            password_hash := some ph, auth_provider := "password",
            is_verified := false, verified_at := none,
            email_verification_token_hash := some (hashTok raw_token),
            email_verification_expires_at := some (.aware (now + verificationHours * 3600)),
            password_reset_token_hash := none, password_reset_expires_at := none,
            password_reset_requested_at := none }, raw_token),
     d ++ [{ id := newId, username := some nu, email := email,
             password_hash := some ph, auth_provider := "password",
             is_verified := false, verified_at := none,
             email_verification_token_hash := some (hashTok raw_token),
             email_verification_expires_at := some (.aware (now + verificationHours * 3600)),
             password_reset_token_hash := none, password_reset_expires_at := none,
             password_reset_requested_at := none }])

/-- `AuthService.register` (lines 32–67). Returns the outcome together with
the resulting directory, so that a raise before any `db.add`/`db.commit`
demonstrably leaves the store untouched. -/
def register (verificationHours : Int) (hashTok : String → String)
    (hashpw : String → String) (d : Directory) (email password : String)
    (username : Option String) (raw_token newId : String) (now : Int)
    (hexes : List String) : Except String (User × String) × Directory :=
  match findByEmail d email with
  | some _ => (.error "Email already registered", d)
  | none =>
    match validate_password_strength password with
    | .error e => (.error e, d)
    | .ok _ =>
      if pyStrip (username.getD "") != "" then
        if !(usernameOk (pyStrip (username.getD ""))) then
          (.error "Username must be 3–30 characters (letters, numbers, underscore only)", d)
        else
          match findByUsername d (pyStrip (username.getD "")) with
          | some _ => (.error "Username already taken", d)
          | none =>
            registerCreate verificationHours hashTok hashpw d email password
              (pyStrip (username.getD "")) raw_token newId now
      else
        match generate_default_username d hexes with
        | .error e => (.error e, d)
        | .ok nu =>
          registerCreate verificationHours hashTok hashpw d email password
            nu raw_token newId now

/-- `AuthService.login` (lines 80–86). `checkpw` is the bcrypt primitive
behind `verify_password`. -/
def login (checkpw : String → String → Option Bool) (d : Directory)
    (email password : String) : Except String User :=
  match findByEmail d email with
  | none => .error "Invalid credentials"
  | some user =>
    if !(truthyStr user.password_hash) then .error "Invalid credentials"
    else if !(verify_password checkpw password (user.password_hash.getD "")) then
      .error "Invalid credentials"
    else .ok user

/-- `AuthService.login_with_google` (lines 88–146), starting from the
verified claims (`verify_google_id_token`'s network/signature work is the
external collaborator). `freshId`, `suffix` and `hexes` are the random
draws for `uuid.uuid4`, the collision suffix, and default-username
candidates. -/
def login_with_google (d : Directory) (claims : GoogleTokenClaims) (now : Int)
    (freshId : String) (suffix : String) (hexes : List String) :
    Except String (User × Directory) :=
  if claims.email_verified == some false then
    .error "Google email is not verified"
  else
    match findByEmail d claims.email with
    | none =>
      match (match derive_username_from_name d claims.name suffix with
             | some u => Except.ok u
             | none => generate_default_username d hexes) with
      | .error e => .error e
      | .ok un =>
        let user : User :=
          { id := freshId, username := some un, email := claims.email,
            password_hash := none, auth_provider := "google",
            is_verified := true, verified_at := some (.aware now),
            email_verification_token_hash := none,
            email_verification_expires_at := none,
            password_reset_token_hash := none,
            password_reset_expires_at := none,
            password_reset_requested_at := none }
        .ok (user, d ++ [user])
    | some user0 =>
      let user1 := if user0.auth_provider != "google"
                   then { user0 with auth_provider := "google" } else user0
      let user2 := if user1.password_hash != none
                   then { user1 with password_hash := none } else user1
      let user3 := if !user2.is_verified
                   then { user2 with
                            is_verified := true,
                            verified_at := some (.aware now) }
                   else user2
      let user4 := { user3 with
        email_verification_token_hash := none,
        email_verification_expires_at := none,
        password_reset_token_hash := none,
        password_reset_expires_at := none,
        password_reset_requested_at := none }
      if !(truthyStr user4.username) then
        match (match derive_username_from_name d claims.name suffix with
               | some u => Except.ok u
               | none => generate_default_username d hexes) with
        | .error e => .error e
        | .ok un =>
          let user5 := { user4 with username := some un }
          .ok (user5, updateUser d user5)
      else
        .ok (user4, updateUser d user4)

/-- `AuthService.verify_email` (lines 190–217). `hashTok` is
`hash_email_verification_token`. -/
def verify_email (hashTok : String → String) (d : Directory) (token : String)
    (now : Int) : Except String Directory :=
  match findByVerificationHash d (hashTok token) with
  | none => .error "Invalid or expired token"
  | some user =>
    if user.is_verified then .error "Invalid or expired token"
    else
      match user.email_verification_expires_at with
      | none => .error "Invalid or expired token"
      | some expires_at =>
        if expires_at.toUtc < now then .error "Invalid or expired token"
        else
          .ok (updateUser d { user with
            is_verified := true,
            verified_at := some (.aware now),
            email_verification_token_hash := none,
            email_verification_expires_at := none })

/-- `AuthService.request_password_reset` (lines 220–252). Returns the raw
token to email, or `none`, together with the resulting directory.
`cooldownSeconds` and `tokenMinutes` are the two settings consumed. -/
def request_password_reset (cooldownSeconds tokenMinutes : Int)
    (hashTok : String → String) (d : Directory) (email : String) (now : Int)
    (raw_token : String) : Option String × Directory :=
  match findByEmail d email with
  | none => (none, d)
  | some user =>
    if user.auth_provider != "password" || !(truthyStr user.password_hash) then
      (none, d)
    else if (match user.password_reset_requested_at with
             | none => false
             | some requested_at => now - requested_at.toUtc < cooldownSeconds) then
      (none, d)
    else
      (some raw_token, updateUser d { user with
        password_reset_token_hash := some (hashTok raw_token),
        password_reset_expires_at := some (.aware (now + tokenMinutes * 60)),
        password_reset_requested_at := some (.aware now) })

/-- `AuthService.reset_password` (lines 255–292). `hashTok` is
`hash_password_reset_token`, `hashpw` the bcrypt primitive behind
`hash_password`. -/
def reset_password (hashTok : String → String) (hashpw : String → String)
    (d : Directory) (token new_password : String) (now : Int) :
    Except String Directory :=
  match validate_password_strength new_password with
  | .error e => .error e
  | .ok _ =>
    match findByResetHash d (hashTok token) with
    | none => .error "Invalid or expired token"
    | some user =>
      match user.password_reset_expires_at with
      | none => .error "Invalid or expired token"
      | some expires_at =>
        if expires_at.toUtc < now then .error "Invalid or expired token"
        else if user.auth_provider != "password" then
          .error "Invalid or expired token"
        else
          match hash_password hashpw new_password with
          | .error e => .error e
          | .ok new_hash =>
            .ok (updateUser d
              (if !user.is_verified then
                { user with
                  password_hash := some new_hash,
                  password_reset_token_hash := none,
                  password_reset_expires_at := none,
                  password_reset_requested_at := none,
                  is_verified := true,
                  verified_at := some (.aware now),
                  email_verification_token_hash := none,
                  email_verification_expires_at := none }
              else
                { user with
                  password_hash := some new_hash,
                  password_reset_token_hash := none,
                  password_reset_expires_at := none,
                  password_reset_requested_at := none }))

/-! ## Directory lemmas -/

/-- Updating the row that `find?` located keeps it the first match, provided
no other row shares its id and the updated row still satisfies the
predicate. -/
theorem find?_updateUser (d : Directory) (p : User → Bool) (u u' : User)
    (hfind : d.find? p = some u)
    (hid : ∀ v ∈ d, v.id = u.id → v = u)
    (hid' : u'.id = u.id) (hp' : p u' = true) :
    (updateUser d u').find? p = some u' := by
  induction d with
  | nil => simp at hfind
  | cons c cs ih =>
    by_cases hc : p c = true
    · rw [List.find?_cons_of_pos _ hc] at hfind
      have hcu : c = u := by simpa using hfind
      have hcond : (c.id == u'.id) = true := by
        rw [hcu, hid']
        exact beq_self_eq_true _
      have hhead : (if (c.id == u'.id) = true then u' else c) = u' := if_pos hcond
      simp only [updateUser, List.map_cons, hhead]
      exact List.find?_cons_of_pos _ hp'
    · have hcf : p c = false := by simpa using hc
      rw [List.find?_cons_of_neg _ (by simp [hcf])] at hfind
      have hcid : c.id ≠ u.id := by
        intro h
        have hcu : c = u := hid c (List.mem_cons_self c cs) h
        have hpu := List.find?_some hfind
        rw [hcu, hpu] at hcf
        exact Bool.noConfusion hcf
      have hcond : ¬ (c.id == u'.id) = true := by
        rw [hid']
        simpa using hcid
      have hhead : (if (c.id == u'.id) = true then u' else c) = c := if_neg hcond
      simp only [updateUser, List.map_cons, hhead]
      rw [List.find?_cons_of_neg _ (by simp [hcf])]
      exact ih hfind (fun v hv h => hid v (List.mem_cons_of_mem c hv) h)

/-- If every row satisfying the predicate shares the updated row's id and the
updated row no longer satisfies it, nothing matches after the update. -/
theorem find?_updateUser_none (d : Directory) (p : User → Bool) (u' : User)
    (hall : ∀ v ∈ d, p v = true → v.id = u'.id)
    (hp' : p u' = false) :
    (updateUser d u').find? p = none := by
  induction d with
  | nil => simp [updateUser]
  | cons c cs ih =>
    by_cases hcid : (c.id == u'.id) = true
    · have hhead : (if (c.id == u'.id) = true then u' else c) = u' := if_pos hcid
      simp only [updateUser, List.map_cons, hhead]
      rw [List.find?_cons_of_neg _ (by simp [hp'])]
      exact ih (fun v hv h => hall v (List.mem_cons_of_mem c hv) h)
    · have hcp : p c = false := by
        by_contra h
        have hpc : p c = true := by simpa using h
        exact hcid (by simp [hall c (List.mem_cons_self c cs) hpc])
      have hhead : (if (c.id == u'.id) = true then u' else c) = c := if_neg hcid
      simp only [updateUser, List.map_cons, hhead]
      rw [List.find?_cons_of_neg _ (by simp [hcp])]
      exact ih (fun v hv h => hall v (List.mem_cons_of_mem c hv) h)

/-! ## Claim theorems -/

/-- A list cannot both have and lack an element satisfying a predicate. -/
theorem any_contradiction {l : List Char} {f : Char → Bool}
    (h1 : l.any f = true) (h2 : (!l.any f) = true) : False := by
  rw [h1] at h2
  exact Bool.noConfusion h2

/-- Variant of `any_contradiction` with the negated hypothesis. -/
theorem any_contradiction2 {l : List Char} {f : Char → Bool}
    (h1 : l.any f = false) (h2 : ¬ (!l.any f) = true) : False := by
  rw [h1] at h2
  exact h2 rfl

/-- **C7.** The password policy accepts exactly when all the listed rules
hold — UTF-8 byte-length ≤ 72, character length ≥ 8, at least one ASCII
uppercase letter, one lowercase letter, one digit, and one non-alphanumeric
character — and a password failing a single rule (all other rules holding) is
rejected with the violation naming that rule, the over-72-bytes case being
checked first (for any password, regardless of the other rules) and carrying
its own distinct message. -/
theorem C7_password_policy (p : String) :
    ((validate_password_strength p).isOk = true ↔
      (utf8ByteLen p ≤ 72 ∧ 8 ≤ p.length ∧ p.toList.any isAsciiUpper = true ∧
       p.toList.any isAsciiLower = true ∧ p.toList.any isAsciiDigit = true ∧
       p.toList.any isSpecialChar = true)) ∧
    (utf8ByteLen p > 72 →
      validate_password_strength p =
        .error ("Password is too long for bcrypt (max 72 bytes, got "
          ++ toString (utf8ByteLen p)
          ++ "). Remove emojis/hidden characters and try again.")) ∧
    (utf8ByteLen p ≤ 72 → p.length < 8 →
      validate_password_strength p =
        .error "Password must be at least 8 characters") ∧
    (utf8ByteLen p ≤ 72 → 8 ≤ p.length → p.toList.any isAsciiUpper = false →
      validate_password_strength p =
        .error "Password must contain at least one uppercase letter") ∧
    (utf8ByteLen p ≤ 72 → 8 ≤ p.length → p.toList.any isAsciiUpper = true →
      p.toList.any isAsciiLower = false →
      validate_password_strength p =
        .error "Password must contain at least one lowercase letter") ∧
    (utf8ByteLen p ≤ 72 → 8 ≤ p.length → p.toList.any isAsciiUpper = true →
      p.toList.any isAsciiLower = true → p.toList.any isAsciiDigit = false →
      validate_password_strength p =
        .error "Password must contain at least one number") ∧
    (utf8ByteLen p ≤ 72 → 8 ≤ p.length → p.toList.any isAsciiUpper = true →
      p.toList.any isAsciiLower = true → p.toList.any isAsciiDigit = true →
      p.toList.any isSpecialChar = false →
      validate_password_strength p =
        .error "Password must contain at least one special character") := by
  unfold validate_password_strength
  split_ifs with h1 h2 h3 h4 h5 h6
  · refine ⟨?_, fun _ => rfl, ?_, ?_, ?_, ?_, ?_⟩
    · simp only [Except.isOk, Except.toBool, Bool.false_eq_true, false_iff]
      rintro ⟨hx, -⟩; omega
    · intro hx hy; omega
    · intro hx hy hz; omega
    · intro hx hy hz hw; omega
    · intro hx hy hz hw hv; omega
    · intro hx hy hz hw hv hq; omega
  · refine ⟨?_, ?_, fun _ _ => rfl, ?_, ?_, ?_, ?_⟩
    · simp only [Except.isOk, Except.toBool, Bool.false_eq_true, false_iff]
      rintro ⟨-, hx, -⟩; omega
    · intro hx; omega
    · intro hx hy hz; omega
    · intro hx hy hz hw; omega
    · intro hx hy hz hw hv; omega
    · intro hx hy hz hw hv hq; omega
  · refine ⟨?_, ?_, ?_, fun _ _ _ => rfl, ?_, ?_, ?_⟩
    · simp only [Except.isOk, Except.toBool, Bool.false_eq_true, false_iff]
      rintro ⟨-, -, hx, -⟩
      exact any_contradiction hx h3
    · intro hx; omega
    · intro hx hy; omega
    · intro hx hy hz hw
      first
      | exact (any_contradiction hz h3).elim
      | exact (any_contradiction2 hz h3).elim
    · intro hx hy hz hw hv
      first
      | exact (any_contradiction hz h3).elim
      | exact (any_contradiction2 hz h3).elim
    · intro hx hy hz hw hv hq
      first
      | exact (any_contradiction hz h3).elim
      | exact (any_contradiction2 hz h3).elim
  · refine ⟨?_, ?_, ?_, ?_, fun _ _ _ _ => rfl, ?_, ?_⟩
    · simp only [Except.isOk, Except.toBool, Bool.false_eq_true, false_iff]
      rintro ⟨-, -, -, hx, -⟩
      exact any_contradiction hx h4
    · intro hx; omega
    · intro hx hy; omega
    · intro hx hy hz
      first
      | exact (any_contradiction hz h3).elim
      | exact (any_contradiction2 hz h3).elim
    · intro hx hy hz hw hv
      first
      | exact (any_contradiction hw h4).elim
      | exact (any_contradiction2 hw h4).elim
    · intro hx hy hz hw hv hq
      first
      | exact (any_contradiction hw h4).elim
      | exact (any_contradiction2 hw h4).elim
  · refine ⟨?_, ?_, ?_, ?_, ?_, fun _ _ _ _ _ => rfl, ?_⟩
    · simp only [Except.isOk, Except.toBool, Bool.false_eq_true, false_iff]
      rintro ⟨-, -, -, -, hx, -⟩
      exact any_contradiction hx h5
    · intro hx; omega
    · intro hx hy; omega
    · intro hx hy hz
      first
      | exact (any_contradiction hz h3).elim
      | exact (any_contradiction2 hz h3).elim
    · intro hx hy hz hw
      first
      | exact (any_contradiction hw h4).elim
      | exact (any_contradiction2 hw h4).elim
    · intro hx hy hz hw hv hq
      first
      | exact (any_contradiction hv h5).elim
      | exact (any_contradiction2 hv h5).elim
  · refine ⟨?_, ?_, ?_, ?_, ?_, ?_, fun _ _ _ _ _ _ => rfl⟩
    · simp only [Except.isOk, Except.toBool, Bool.false_eq_true, false_iff]
      rintro ⟨-, -, -, -, -, hx⟩
      exact any_contradiction hx h6
    · intro hx; omega
    · intro hx hy; omega
    · intro hx hy hz
      first
      | exact (any_contradiction hz h3).elim
      | exact (any_contradiction2 hz h3).elim
    · intro hx hy hz hw
      first
      | exact (any_contradiction hw h4).elim
      | exact (any_contradiction2 hw h4).elim
    · intro hx hy hz hw hv
      first
      | exact (any_contradiction hv h5).elim
      | exact (any_contradiction2 hv h5).elim
  · refine ⟨?_, ?_, ?_, ?_, ?_, ?_, ?_⟩
    · simp only [Except.isOk, Except.toBool, eq_self_iff_true, true_iff]
      refine ⟨by omega, by omega, ?_, ?_, ?_, ?_⟩ <;> simp_all
    · intro hx; omega
    · intro hx hy; omega
    · intro hx hy hz
      first
      | exact (any_contradiction hz h3).elim
      | exact (any_contradiction2 hz h3).elim
    · intro hx hy hz hw
      first
      | exact (any_contradiction hw h4).elim
      | exact (any_contradiction2 hw h4).elim
    · intro hx hy hz hw hv
      first
      | exact (any_contradiction hv h5).elim
      | exact (any_contradiction2 hv h5).elim
    · intro hx hy hz hw hv hq
      first
      | exact (any_contradiction hq h6).elim
      | exact (any_contradiction2 hq h6).elim

/-- Witness for C7 at the policy-valid password `"Abc12345!"`. -/
theorem C7_password_policy_witness :
    (validate_password_strength "Abc12345!").isOk = true := by
  exact (C7_password_policy "Abc12345!").1.mpr (by decide)

/-- **C8.** Against any bcrypt primitive satisfying the library's round-trip
contract (`checkpw p (hashpw p) = some true`), every policy-valid password
hashes successfully and verifies against its own hash; and whenever the
primitive raises on a malformed/corrupted/foreign-format credential
(modelled as `checkpw` returning `none`), `verify_password` returns `false`
instead of propagating the exception. -/
theorem C8_hash_verify_roundtrip (hashpw : String → String)
    (checkpw : String → String → Option Bool)
    (hcontract : ∀ p, checkpw p (hashpw p) = some true) :
    (∀ p, (validate_password_strength p).isOk = true →
      hash_password hashpw p = .ok (hashpw p) ∧
      verify_password checkpw p (hashpw p) = true) ∧
    (∀ p h, checkpw p h = none → verify_password checkpw p h = false) := by
  constructor
  · intro p hp
    constructor
    · unfold hash_password
      cases hv : validate_password_strength p with
      | error e => rw [hv] at hp; simp [Except.isOk, Except.toBool] at hp
      | ok v => rfl
    · unfold verify_password
      rw [hcontract p]
  · intro p h hnone
    unfold verify_password
    rw [hnone]

/-- Witness for C8 with the identity hash and equality check as the
primitive, at the policy-valid password `"Abc12345!"` and with an
always-raising primitive for the malformed case. -/
theorem C8_hash_verify_roundtrip_witness :
    verify_password (fun a b => if b = "H" ++ a then some true else none)
      "Abc12345!" ((fun a => "H" ++ a) "Abc12345!") = true ∧
    verify_password (fun a b => if b = "H" ++ a then some true else none)
      "Abc12345!" "$2b$corrupted" = false := by
  constructor
  · exact ((C8_hash_verify_roundtrip (fun a => "H" ++ a)
      (fun a b => if b = "H" ++ a then some true else none)
      (fun p => by simp)).1 "Abc12345!" (by decide)).2
  · exact (C8_hash_verify_roundtrip (fun a => "H" ++ a)
      (fun a b => if b = "H" ++ a then some true else none)
      (fun p => by simp)).2 "Abc12345!" "$2b$corrupted" (by decide)

/-- **C9.** Password login collapses its three failure causes — no account
with the email, an account with no (or empty) password credential, and a
stored credential the password does not verify against — into one and the
same generic `Invalid credentials` outcome, with no observable distinction
between the sub-conditions. -/
theorem C9_login_enumeration_resistant
    (checkpw : String → String → Option Bool) (d : Directory)
    (email password : String) :
    (findByEmail d email = none →
      login checkpw d email password = .error "Invalid credentials") ∧
    (∀ u, findByEmail d email = some u → truthyStr u.password_hash = false →
      login checkpw d email password = .error "Invalid credentials") ∧
    (∀ u, findByEmail d email = some u → truthyStr u.password_hash = true →
      verify_password checkpw password (u.password_hash.getD "") = false →
      login checkpw d email password = .error "Invalid credentials") := by
  refine ⟨?_, ?_, ?_⟩
  · intro h; unfold login; rw [h]
  · intro u hu hph; unfold login; rw [hu]; simp [hph]
  · intro u hu hph hv; unfold login; rw [hu]; simp [hph, hv]

/-- Witness for C9 on the empty directory. -/
theorem C9_login_enumeration_resistant_witness :
    login (fun a b => some (a == b)) [] "a@example.com" "pw"
      = .error "Invalid credentials" := by
  exact (C9_login_enumeration_resistant (fun a b => some (a == b)) []
    "a@example.com" "pw").1 rfl

/-- A concrete unverified password account with a pending verification token
(hash `"tok"`, expiry 100, aware) and a pending reset token (hash `"rtok"`,
expiry 100, aware), used to instantiate witnesses. -/
def vuser : User :=
  { id := "id0"
    username := some "alice"
    email := "a@example.com"
    password_hash := some "ph"
    auth_provider := "password"
    is_verified := false
    verified_at := none
    email_verification_token_hash := some "tok"
    email_verification_expires_at := some (.aware 100)
    password_reset_token_hash := some "rtok"
    password_reset_expires_at := some (.aware 100)
    password_reset_requested_at := none }

/-- **C6.** Registering an email already present in the directory fails with
`Email already registered` before any other step runs — for every password
(even invalid ones), username, token and candidate pool — and returns the
directory unchanged: the failed attempt performs zero mutation. -/
theorem C6_register_email_taken (verificationHours : Int)
    (hashTok hashpw : String → String) (d : Directory) (email password : String)
    (username : Option String) (raw_token newId : String) (now : Int)
    (hexes : List String) (u : User)
    (hfound : findByEmail d email = some u) :
    register verificationHours hashTok hashpw d email password username
      raw_token newId now hexes = (.error "Email already registered", d) := by
  unfold register
  rw [hfound]

/-- Witness for C6: re-registering `vuser`'s email (with a weak password)
fails and leaves the directory untouched. -/
theorem C6_register_email_taken_witness :
    register 24 id id [vuser] "a@example.com" "weak" none "rt" "id9" 0 []
      = (.error "Email already registered", [vuser]) := by
  exact C6_register_email_taken 24 id id [vuser] "a@example.com" "weak" none
    "rt" "id9" 0 [] vuser (by decide)

/-- Counterexample to **C2** as stated: at the instant the stored expiry
equals `now` (both 100), consuming the email-verification token *succeeds*
(the code compares with strict `<`), while the claim demands failure at
`expiry ≤ now`. -/
theorem C2_token_expiry_counterexample :
    vuser.email_verification_expires_at = some (.aware 100) ∧
    (verify_email id [vuser] "tok" 100).isOk = true := by
  constructor
  · rfl
  · decide

/-- **C2 (amended).** Token consumption fails with `Invalid or expired
token` whenever the stored expiry is absent or strictly before `now`, and on
the expiry condition succeeds whenever `now ≤ expiry` — in particular a
consumption at the instant `expiry = now` succeeds; naive (timezone-less)
stored timestamps are interpreted as UTC (their clock value is kept) before
the comparison. This holds for both email verification and reset
consumption. -/
theorem C2_token_expiry_boundary (hashTok hashpw : String → String)
    (d : Directory) (token : String) (now : Int) (u : User) :
    (findByVerificationHash d (hashTok token) = some u → u.is_verified = false →
      (u.email_verification_expires_at = none →
        verify_email hashTok d token now = .error "Invalid or expired token") ∧
      (∀ e, u.email_verification_expires_at = some e → e.toUtc < now →
        verify_email hashTok d token now = .error "Invalid or expired token") ∧
      (∀ e, u.email_verification_expires_at = some e → now ≤ e.toUtc →
        (verify_email hashTok d token now).isOk = true)) ∧
    (∀ new_password, (validate_password_strength new_password).isOk = true →
      findByResetHash d (hashTok token) = some u → u.auth_provider = "password" →
      (u.password_reset_expires_at = none →
        reset_password hashTok hashpw d token new_password now =
          .error "Invalid or expired token") ∧
      (∀ e, u.password_reset_expires_at = some e → e.toUtc < now →
        reset_password hashTok hashpw d token new_password now =
          .error "Invalid or expired token") ∧
      (∀ e, u.password_reset_expires_at = some e → now ≤ e.toUtc →
        (reset_password hashTok hashpw d token new_password now).isOk = true)) ∧
    (∀ t : Int, (Timestamp.naive t).toUtc = t) := by
  refine ⟨?_, ?_, fun t => rfl⟩
  · intro hfound hnv
    refine ⟨?_, ?_, ?_⟩
    · intro hnone
      simp [verify_email, hfound, hnv, hnone]
    · intro e he hlt
      simp [verify_email, hfound, hnv, he, hlt]
    · intro e he hge
      simp [verify_email, hfound, hnv, he, not_lt.mpr hge, Except.isOk,
        Except.toBool]
  · intro new_password hpolicy hfound hprov
    have hok : validate_password_strength new_password = .ok () := by
      cases hv : validate_password_strength new_password with
      | error e =>
        rw [hv] at hpolicy
        exact absurd hpolicy (by simp [Except.isOk, Except.toBool])
      | ok v => rfl
    refine ⟨?_, ?_, ?_⟩
    · intro hnone
      simp [reset_password, hok, hfound, hnone]
    · intro e he hlt
      simp [reset_password, hok, hfound, he, hlt]
    · intro e he hge
      simp [reset_password, hash_password, hok, hfound, he, not_lt.mpr hge,
        hprov, Except.isOk, Except.toBool]

/-- Witness for the amended C2: consuming `vuser`'s reset token one second
past its expiry fails; consuming it exactly at the expiry instant (now =
100) succeeds. -/
theorem C2_token_expiry_boundary_witness :
    reset_password id id [vuser] "rtok" "Abc12345!" 101
      = .error "Invalid or expired token" ∧
    (reset_password id id [vuser] "rtok" "Abc12345!" 100).isOk = true := by
  constructor
  · exact (((C2_token_expiry_boundary id id [vuser] "rtok" 101 vuser).2.1
      "Abc12345!" (by decide) (by decide) rfl).2.1 (.aware 100) rfl (by decide))
  · exact (((C2_token_expiry_boundary id id [vuser] "rtok" 100 vuser).2.1
      "Abc12345!" (by decide) (by decide) rfl).2.2 (.aware 100) rfl (by decide))

/-- **C1.** Email verification tokens are single-use: for an account found
by its verification-token hash, unverified, with an unexpired expiry,
consuming the matching raw token sets `is_verified := true`,
`verified_at := now`, clears the hash and expiry, and persists the updated
directory; consuming the same raw token again (at any later time) fails with
`Invalid or expired token`, as does any consumption against an
already-verified account even while the hash column is still set. -/
theorem C1_verify_email_single_use (hashTok : String → String) (d : Directory)
    (token : String) (now : Int) (u : User)
    (hfound : findByVerificationHash d (hashTok token) = some u)
    (huniq : ∀ v ∈ d,
      v.email_verification_token_hash = some (hashTok token) → v.id = u.id) :
    (∀ e, u.is_verified = false → u.email_verification_expires_at = some e →
      ¬ (e.toUtc < now) →
      verify_email hashTok d token now =
        .ok (updateUser d { u with
          is_verified := true,
          verified_at := some (.aware now),
          email_verification_token_hash := none,
          email_verification_expires_at := none }) ∧
      (∀ now2, verify_email hashTok
          (updateUser d { u with
            is_verified := true,
            verified_at := some (.aware now),
            email_verification_token_hash := none,
            email_verification_expires_at := none }) token now2 =
        .error "Invalid or expired token")) ∧
    (u.is_verified = true →
      verify_email hashTok d token now = .error "Invalid or expired token") := by
  constructor
  · intro e hnv he hlt
    constructor
    · simp [verify_email, hfound, hnv, he, hlt]
    · intro now2
      have hnone : findByVerificationHash
          (updateUser d { u with
            is_verified := true,
            verified_at := some (.aware now),
            email_verification_token_hash := none,
            email_verification_expires_at := none }) (hashTok token) = none :=
        find?_updateUser_none d _ _
          (fun v hv hpv => huniq v hv (by simpa using hpv)) (by simp)
      simp [verify_email, hnone]
  · intro hv
    simp [verify_email, hfound, hv]

/-- Witness for C1: consuming `vuser`'s token at time 50 succeeds and flips
the account; consuming the same token again at time 77 fails. -/
theorem C1_verify_email_single_use_witness :
    verify_email id [vuser] "tok" 50 =
      .ok (updateUser [vuser] { vuser with
        is_verified := true,
        verified_at := some (Timestamp.aware 50),
        email_verification_token_hash := none,
        email_verification_expires_at := none }) ∧
    verify_email id (updateUser [vuser] { vuser with
        is_verified := true,
        verified_at := some (Timestamp.aware 50),
        email_verification_token_hash := none,
        email_verification_expires_at := none }) "tok" 77 =
      .error "Invalid or expired token" := by
  have h := (C1_verify_email_single_use id [vuser] "tok" 50 vuser (by decide)
    (by decide)).1 (Timestamp.aware 100) rfl rfl (by decide)
  exact ⟨h.1, h.2 77⟩

/-- The deterministic in-place merge that `login_with_google` applies to an
existing account (auth_service.py lines 119–137, before the username
backfill): provider forced to google, password credential nulled, verified
forced true with `verified_at = now` only when not already verified, all
pending verification/reset token state cleared. -/
def mergeIntoGoogle (u : User) (now : Int) : User :=
  { u with
    auth_provider := "google",
    password_hash := none,
    is_verified := true,
    verified_at := if u.is_verified then u.verified_at else some (Timestamp.aware now),
    email_verification_token_hash := none,
    email_verification_expires_at := none,
    password_reset_token_hash := none,
    password_reset_expires_at := none,
    password_reset_requested_at := none }

/-- **C3.** For an existing local account matching a verified external
assertion's email, linking merges in place: the account becomes exactly
`mergeIntoGoogle u now` (provider google, no password credential, verified
with `verified_at = now` iff it was not already verified, all pending token
state cleared), persisted via `updateUser`; a missing username is backfilled
from the derive-or-default allocator; and a subsequent password login for
that email on the updated directory fails with `Invalid credentials`. -/
theorem C3_google_link_merge (d : Directory) (claims : GoogleTokenClaims)
    (now : Int) (freshId suffix : String) (hexes : List String)
    (checkpw : String → String → Option Bool) (password : String) (u : User)
    (hev : claims.email_verified ≠ some false)
    (hfound : findByEmail d claims.email = some u)
    (hid : ∀ v ∈ d, v.id = u.id → v = u) :
    (truthyStr u.username = true →
      login_with_google d claims now freshId suffix hexes =
        .ok (mergeIntoGoogle u now, updateUser d (mergeIntoGoogle u now)) ∧
      login checkpw (updateUser d (mergeIntoGoogle u now)) claims.email
        password = .error "Invalid credentials") ∧
    (truthyStr u.username = false →
      ∀ un, (match derive_username_from_name d claims.name suffix with
             | some x => Except.ok x
             | none => generate_default_username d hexes) = .ok un →
      login_with_google d claims now freshId suffix hexes =
        .ok ({ mergeIntoGoogle u now with username := some un },
          updateUser d { mergeIntoGoogle u now with username := some un }) ∧
      login checkpw
        (updateUser d { mergeIntoGoogle u now with username := some un })
        claims.email password = .error "Invalid credentials") ∧
    (mergeIntoGoogle u now).auth_provider = "google" ∧
    (mergeIntoGoogle u now).password_hash = none ∧
    (mergeIntoGoogle u now).is_verified = true ∧
    (u.is_verified = false →
      (mergeIntoGoogle u now).verified_at = some (.aware now)) ∧
    (u.is_verified = true →
      (mergeIntoGoogle u now).verified_at = u.verified_at) ∧
    (mergeIntoGoogle u now).email_verification_token_hash = none ∧
    (mergeIntoGoogle u now).email_verification_expires_at = none ∧
    (mergeIntoGoogle u now).password_reset_token_hash = none ∧
    (mergeIntoGoogle u now).password_reset_expires_at = none ∧
    (mergeIntoGoogle u now).password_reset_requested_at = none := by
  have hevb : (claims.email_verified == some false) = false := by
    simp [hev]
  have hpu : (u.email == claims.email) = true := by
    have := List.find?_some hfound
    simpa using this
  have hmerge_email : (mergeIntoGoogle u now).email = u.email := rfl
  have hmerge_id : (mergeIntoGoogle u now).id = u.id := rfl
  refine ⟨?_, ?_, rfl, rfl, rfl, ?_, ?_, rfl, rfl, rfl, rfl, rfl⟩
  · intro husername
    constructor
    · simp only [login_with_google, hevb, Bool.false_eq_true, if_false, hfound]
      by_cases h1 : (u.auth_provider != "google") = true <;>
        by_cases h2 : (u.password_hash != none) = true <;>
        by_cases h3 : u.is_verified = true <;>
        simp_all [mergeIntoGoogle, truthyStr]
    · have hfind2 : findByEmail (updateUser d (mergeIntoGoogle u now))
          claims.email = some (mergeIntoGoogle u now) := by
        exact find?_updateUser d _ u (mergeIntoGoogle u now) hfound hid rfl
          (by simpa [mergeIntoGoogle] using hpu)
      simp only [mergeIntoGoogle] at hfind2
      simp [login, hfind2, truthyStr, mergeIntoGoogle]
  · intro husername un hun
    constructor
    · simp only [login_with_google, hevb, Bool.false_eq_true, if_false, hfound]
      by_cases h1 : (u.auth_provider != "google") = true <;>
        by_cases h2 : (u.password_hash != none) = true <;>
        by_cases h3 : u.is_verified = true <;>
        simp_all [mergeIntoGoogle, truthyStr]
    · have hfind2 : findByEmail
          (updateUser d { mergeIntoGoogle u now with username := some un })
          claims.email = some { mergeIntoGoogle u now with username := some un } := by
        exact find?_updateUser d _ u _ hfound hid rfl
          (by simpa [mergeIntoGoogle] using hpu)
      simp only [mergeIntoGoogle] at hfind2
      simp [login, hfind2, truthyStr, mergeIntoGoogle]
  · intro h3
    simp [mergeIntoGoogle, h3]
  · intro h3
    simp [mergeIntoGoogle, h3]

/-- Concrete verified Google assertion matching `vuser`'s email. -/
def gclaims : GoogleTokenClaims :=
  { email := "a@example.com"
    sub := "gsub"
    name := some "Alice"
    email_verified := some true }

/-- Witness for C3: linking `gclaims` onto `vuser` merges in place and a
password login afterwards fails. -/
theorem C3_google_link_merge_witness :
    login_with_google [vuser] gclaims 50 "idG" "beef" [] =
      .ok (mergeIntoGoogle vuser 50, updateUser [vuser] (mergeIntoGoogle vuser 50)) ∧
    login (fun a b => some (a == b)) (updateUser [vuser] (mergeIntoGoogle vuser 50))
      "a@example.com" "ph" = .error "Invalid credentials" := by
  have h := (C3_google_link_merge [vuser] gclaims 50 "idG" "beef" []
    (fun a b => some (a == b)) "ph" vuser (by decide) (by decide)
    (by decide)).1 (by decide)
  exact ⟨h.1, h.2⟩

/-- **C4.** Consuming a valid, unexpired reset token of a password account
with a policy-valid new password stores the re-hashed credential, clears the
reset hash, expiry and requestedAt, and — exactly when the account was not
yet verified — also marks it verified at `now` and clears any pending
email-verification token state; and the new-password policy check runs
before the token is looked up, so a policy-violating new password yields
that policy violation (never `Invalid or expired token`) regardless of the
token. -/
theorem C4_reset_password_consumption (hashTok hashpw : String → String)
    (d : Directory) (token new_password : String) (now : Int) (u : User) :
    ((validate_password_strength new_password).isOk = true →
      findByResetHash d (hashTok token) = some u →
      u.auth_provider = "password" →
      ∀ e, u.password_reset_expires_at = some e → ¬ (e.toUtc < now) →
      reset_password hashTok hashpw d token new_password now =
        .ok (updateUser d
          (if !u.is_verified then
            { u with
              password_hash := some (hashpw new_password),
              password_reset_token_hash := none,
              password_reset_expires_at := none,
              password_reset_requested_at := none,
              is_verified := true,
              verified_at := some (.aware now),
              email_verification_token_hash := none,
              email_verification_expires_at := none }
          else
            { u with
              password_hash := some (hashpw new_password),
              password_reset_token_hash := none,
              password_reset_expires_at := none,
              password_reset_requested_at := none }))) ∧
    (∀ msg, validate_password_strength new_password = .error msg →
      reset_password hashTok hashpw d token new_password now = .error msg) := by
  constructor
  · intro hpolicy hfound hprov e he hlt
    have hok : validate_password_strength new_password = .ok () := by
      cases hv : validate_password_strength new_password with
      | error e2 =>
        rw [hv] at hpolicy
        exact absurd hpolicy (by simp [Except.isOk, Except.toBool])
      | ok v => rfl
    simp [reset_password, hash_password, hok, hfound, he, hlt, hprov]
  · intro msg hmsg
    simp [reset_password, hmsg]

/-- Witness for C4: resetting `vuser`'s password with its valid token and a
policy-valid new password at time 50 stores the new credential, clears the
reset triple, and implicitly verifies the account. -/
theorem C4_reset_password_consumption_witness :
    reset_password id id [vuser] "rtok" "Abc12345!" 50 =
      .ok (updateUser [vuser]
        (if !vuser.is_verified then
          { vuser with
            password_hash := some (id "Abc12345!"),
            password_reset_token_hash := none,
            password_reset_expires_at := none,
            password_reset_requested_at := none,
            is_verified := true,
            verified_at := some (Timestamp.aware 50),
            email_verification_token_hash := none,
            email_verification_expires_at := none }
        else
          { vuser with
            password_hash := some (id "Abc12345!"),
            password_reset_token_hash := none,
            password_reset_expires_at := none,
            password_reset_requested_at := none })) := by
  exact (C4_reset_password_consumption id id [vuser] "rtok" "Abc12345!" 50
    vuser).1 (by decide) (by decide) rfl (Timestamp.aware 100) rfl (by decide)

/-- **C5.** Password-reset request: silence (no token, directory unchanged)
when no account matches, when the account is not a password account or has
no (or empty) password credential, or when a previous request timestamp is
within the cooldown window; otherwise it mints the token, stores its hash,
sets expiry = now + minutes·60 and requestedAt = now, persists, and returns
the raw token — consequently a second request within the cooldown of a
successful one returns no token and leaves the state as after the first,
while a second request at or beyond the cooldown issues a fresh token. -/
theorem C5_reset_request_cooldown (cooldownSeconds tokenMinutes : Int)
    (hashTok : String → String) (d : Directory) (email : String) (now : Int)
    (raw_token : String) :
    (findByEmail d email = none →
      request_password_reset cooldownSeconds tokenMinutes hashTok d email now
        raw_token = (none, d)) ∧
    (∀ u, findByEmail d email = some u →
      (u.auth_provider ≠ "password" ∨ truthyStr u.password_hash = false) →
      request_password_reset cooldownSeconds tokenMinutes hashTok d email now
        raw_token = (none, d)) ∧
    (∀ u t, findByEmail d email = some u →
      u.password_reset_requested_at = some t →
      now - t.toUtc < cooldownSeconds →
      request_password_reset cooldownSeconds tokenMinutes hashTok d email now
        raw_token = (none, d)) ∧
    (∀ u, findByEmail d email = some u → u.auth_provider = "password" →
      truthyStr u.password_hash = true →
      (∀ t, u.password_reset_requested_at = some t →
        ¬ (now - t.toUtc < cooldownSeconds)) →
      request_password_reset cooldownSeconds tokenMinutes hashTok d email now
        raw_token =
        (some raw_token, updateUser d { u with
          password_reset_token_hash := some (hashTok raw_token),
          password_reset_expires_at := some (.aware (now + tokenMinutes * 60)),
          password_reset_requested_at := some (.aware now) })) ∧
    (∀ u, findByEmail d email = some u →
      (∀ v ∈ d, v.id = u.id → v = u) →
      u.auth_provider = "password" →
      truthyStr u.password_hash = true →
      (∀ t, u.password_reset_requested_at = some t →
        ¬ (now - t.toUtc < cooldownSeconds)) →
      ∀ now2 raw2,
        (now2 - now < cooldownSeconds →
          request_password_reset cooldownSeconds tokenMinutes hashTok
            (request_password_reset cooldownSeconds tokenMinutes hashTok d
              email now raw_token).2 email now2 raw2 =
          (none, (request_password_reset cooldownSeconds tokenMinutes hashTok
            d email now raw_token).2)) ∧
        (¬ (now2 - now < cooldownSeconds) →
          (request_password_reset cooldownSeconds tokenMinutes hashTok
            (request_password_reset cooldownSeconds tokenMinutes hashTok d
              email now raw_token).2 email now2 raw2).1 = some raw2)) := by
  have hmain : ∀ u, findByEmail d email = some u →
      u.auth_provider = "password" →
      truthyStr u.password_hash = true →
      (∀ t, u.password_reset_requested_at = some t →
        ¬ (now - t.toUtc < cooldownSeconds)) →
      request_password_reset cooldownSeconds tokenMinutes hashTok d email now
        raw_token =
        (some raw_token, updateUser d { u with
          password_reset_token_hash := some (hashTok raw_token),
          password_reset_expires_at := some (.aware (now + tokenMinutes * 60)),
          password_reset_requested_at := some (.aware now) }) := by
    intro u hu hprov htr hcool
    cases hreq : u.password_reset_requested_at with
    | none => simp [request_password_reset, hu, hprov, htr, hreq]
    | some t => simp [request_password_reset, hu, hprov, htr, hreq, hcool t hreq]
  refine ⟨?_, ?_, ?_, hmain, ?_⟩
  · intro h
    simp [request_password_reset, h]
  · intro u hu hbad
    rcases hbad with hb | hb
    · simp [request_password_reset, hu, hb]
    · simp [request_password_reset, hu, hb]
  · intro u t hu hreq hlt
    by_cases hc : (u.auth_provider != "password" || !(truthyStr u.password_hash)) = true
    · simp [request_password_reset, hu, hc]
    · simp [request_password_reset, hu, hc, hreq, hlt]
  · intro u hu hid hprov htr hcool now2 raw2
    have hpu : (u.email == email) = true := by
      have := List.find?_some hu
      simpa using this
    have hfirst := hmain u hu hprov htr hcool
    have hfind2 : findByEmail (updateUser d { u with
        password_reset_token_hash := some (hashTok raw_token),
        password_reset_expires_at := some (.aware (now + tokenMinutes * 60)),
        password_reset_requested_at := some (.aware now) }) email =
        some { u with
          password_reset_token_hash := some (hashTok raw_token),
          password_reset_expires_at := some (.aware (now + tokenMinutes * 60)),
          password_reset_requested_at := some (.aware now) } := by
      exact find?_updateUser d _ u _ hu hid rfl (by simpa using hpu)
    rw [hprov] at hfind2
    rw [hfirst]
    constructor
    · intro hlt2
      simp [request_password_reset, hfind2, hprov, htr, hlt2, Timestamp.toUtc]
    · intro hge2
      simp [request_password_reset, hfind2, hprov, htr, hge2, Timestamp.toUtc]

/-- Witness for C5: a first request for `vuser` at time 0 issues token
`"rt"`; a second request at time 30 (within the 60-second cooldown) issues
nothing and leaves the state as after the first; a second request at time 60
issues the fresh token `"rt3"`. -/
theorem C5_reset_request_cooldown_witness :
    request_password_reset 60 30 id
      (request_password_reset 60 30 id [vuser] "a@example.com" 0 "rt").2
      "a@example.com" 30 "rt2" =
      (none, (request_password_reset 60 30 id [vuser] "a@example.com" 0 "rt").2) ∧
    (request_password_reset 60 30 id
      (request_password_reset 60 30 id [vuser] "a@example.com" 0 "rt").2
      "a@example.com" 60 "rt3").1 = some "rt3" := by
  have h := (C5_reset_request_cooldown 60 30 id [vuser] "a@example.com" 0
    "rt").2.2.2.2 vuser (by decide) (by decide) rfl (by decide)
    (fun t ht => Option.noConfusion ht)
  exact ⟨(h 30 "rt2").1 (by decide), (h 60 "rt3").2 (by decide)⟩

/-- **C10.** External-identity linking rejects with `Google email is not
verified` exactly when the coerced email-verified claim is `some false`; an
absent claim or one of unrecognized type coerces to `none` (and linking
proceeds — the rejection error can then never arise), a boolean passes
through, and a string is verified exactly when it equals `"true"`
case-insensitively. -/
theorem C10_email_verified_gate (raw : JsonValue) (d : Directory) (now : Int)
    (freshId suffix : String) (hexes : List String) (email sub2 : String)
    (name : Option String) :
    (parse_email_verified raw = some false →
      login_with_google d ⟨email, sub2, name, parse_email_verified raw⟩ now
        freshId suffix hexes = .error "Google email is not verified") ∧
    (parse_email_verified raw ≠ some false →
      login_with_google d ⟨email, sub2, name, parse_email_verified raw⟩ now
        freshId suffix hexes ≠ .error "Google email is not verified") ∧
    (raw = .null → parse_email_verified raw = none) ∧
    (raw = .other → parse_email_verified raw = none) ∧
    (∀ b, raw = .bool b → parse_email_verified raw = some b) ∧
    (∀ s, raw = .str s →
      parse_email_verified raw = some (pyLower s == "true")) := by
  have hgen : ∀ e, generate_default_username d hexes = .error e →
      e = "Unable to generate username. Please try again." := by
    intro e he
    unfold generate_default_username at he
    cases hf : ((hexes.take 20).map (fun hx => "user_" ++ hx)).find?
        (fun c => (findByUsername d c).isNone) with
    | some c => rw [hf] at he; cases he
    | none =>
      rw [hf] at he
      injection he with h
      exact h.symm
  have halloc : ∀ e, (match derive_username_from_name d name suffix with
      | some x => Except.ok x
      | none => generate_default_username d hexes) = .error e →
      e = "Unable to generate username. Please try again." := by
    intro e he
    cases hdu : derive_username_from_name d name suffix with
    | some x => rw [hdu] at he; cases he
    | none => rw [hdu] at he; exact hgen e he
  refine ⟨?_, ?_, fun h => by subst h; rfl, fun h => by subst h; rfl,
    fun b h => by subst h; rfl, fun s h => by subst h; rfl⟩
  · intro h
    simp [login_with_google, h]
  · intro h
    have hevb : ((parse_email_verified raw : Option Bool) == some false) = false := by
      simp [h]
    simp only [login_with_google, hevb, Bool.false_eq_true, if_false]
    cases hf : findByEmail d email with
    | none =>
      simp only [hf]
      cases hd : (match derive_username_from_name d name suffix with
          | some x => Except.ok x
          | none => generate_default_username d hexes) with
      | error e =>
        have he := halloc e hd
        simp [hd, he]
      | ok un =>
        simp [hd]
    | some u0 =>
      simp only [hf]
      cases hd : (match derive_username_from_name d name suffix with
          | some x => Except.ok x
          | none => generate_default_username d hexes) with
      | error e =>
        have he := halloc e hd
        simp only [hd, he]
        repeat' split
        all_goals simp
      | ok un =>
        simp only [hd]
        repeat' split
        all_goals simp

/-- Witness for C10: the string claim `"False"` coerces to `some false` and
linking is rejected; an absent claim coerces to `none`. -/
theorem C10_email_verified_gate_witness :
    login_with_google []
      ⟨"a@example.com", "gsub", none, parse_email_verified (.str "False")⟩
      0 "idG" "sfx" ["aaaaaa"] = .error "Google email is not verified" ∧
    parse_email_verified .null = none := by
  constructor
  · exact (C10_email_verified_gate (.str "False") [] 0 "idG" "sfx" ["aaaaaa"]
      "a@example.com" "gsub" none).1 (by decide)
  · exact (C10_email_verified_gate .null [] 0 "idG" "sfx" ["aaaaaa"]
      "a@example.com" "gsub" none).2.2.1 rfl

end MyFutureAI
